import Mathlib

/-!
Verification development for the wave-planner core (cost estimator, wave
organizer, risk predictor).  The TypeScript sources under src/lib and
src/unnamed are shallowly embedded: JS numbers are modelled as exact
rationals (ℚ) with Math.round as floor(q + 1/2) (JS rounds halves toward
+infinity), JS Set/Map as Finset / association lists, and regexes as a
small derivative-based matcher over an explicit regex AST.
-/

-- ===========================================================================
-- JS-semantics helpers
-- ===========================================================================

/-- Math.round: round half toward positive infinity. -/
def jsRound (q : ℚ) : ℤ := ⌊q + 1/2⌋

/-- Last-write-wins lookup, the semantics of JS Map.get on an association
list of set calls. -/
def mapGet {α : Type} (m : List (String × α)) (k : String) : Option α :=
  (m.reverse.find? (fun e => e.1 == k)).map (fun e => e.2)

def jsDedupGo {α : Type} [DecidableEq α] (seen : List α) : List α → List α
  | [] => []
  | x :: xs => if x ∈ seen then jsDedupGo seen xs else x :: jsDedupGo (x :: seen) xs

/-- Spread of a JS Set built from a list: first-occurrence order, no dups. -/
def jsDedup {α : Type} [DecidableEq α] (l : List α) : List α := jsDedupGo [] l

def padZeros (s : String) (j : Nat) : String :=
  String.mk (List.replicate (j - s.length) '0') ++ s

/-- Decimal rendering of a rational, matching how JS prints the finite
decimal config constants used here (1.5 -> "1.5", 60 -> "60").  Strings
built from it are never load-bearing in any theorem. -/
def numStr (q : ℚ) : String :=
  match (List.range 10).find? (fun j => (q * (10 : ℚ) ^ j).den == 1) with
  | some 0 => toString q.num
  | some j =>
      let m := (q * (10 : ℚ) ^ j).num
      let a := m.natAbs
      (if m < 0 then "-" else "") ++ toString (a / 10 ^ j) ++ "." ++
        padZeros (toString (a % 10 ^ j)) j
  | none => toString q

-- ===========================================================================
-- Data model (src/adapters/linear.ts interface section, src/lib/estimator.ts)
-- ===========================================================================

inductive Complexity | low | medium | high
  deriving DecidableEq, Repr

inductive Confidence | low | medium | high
  deriving DecidableEq, Repr

/-- Priority domain of the data model (linear.ts: type Priority). -/
inductive Priority | p0Critical | p1High | p2Medium | p3Low
  deriving DecidableEq, Repr

structure Label where
  id : String := ""
  name : String
  color : Option String := none
  description : Option String := none
  deriving DecidableEq, Repr

/-- Issue (linear.ts).  Following the spec's design note, the self-referential
parent reference is stored as an id (weak reference), which is the only part
of a parent the core reads (issue.parent.id / issue.parent?.id). -/
structure Issue where
  id : String
  identifier : String
  title : String
  description : String
  priority : Priority
  labels : List Label
  parent : Option String := none
  estimate : Option ℚ := none
  deriving DecidableEq, Repr

structure FileInfo where
  path : String
  lines : Nat
  language : String
  complexity : Complexity
  deriving DecidableEq, Repr

structure CodebaseContext where
  filesLikelyTouched : List FileInfo
  relatedFiles : List FileInfo
  totalLines : Nat
  avgComplexity : Complexity
  deriving DecidableEq, Repr

structure TokenBreakdown where
  codebaseContext : ℤ
  implementation : ℤ
  tests : ℤ
  review : ℤ
  documentation : ℤ
  deriving DecidableEq, Repr

structure TokenEstimate where
  total : ℤ
  breakdown : TokenBreakdown
  confidence : Confidence
  assumptions : List String
  filesAnalyzed : Nat
  deriving DecidableEq, Repr

structure Multipliers where
  contextExpansion : ℚ
  testOverhead : ℚ
  reviewOverhead : ℚ
  documentation : ℚ
  deriving DecidableEq, Repr

structure EstimationConfig where
  multipliers : Multipliers
  complexity : Complexity → ℚ
  priority : Priority → ℚ
  reviewCycles : ℚ

def DEFAULT_CONFIG : EstimationConfig where
  multipliers := { contextExpansion := 3/2, testOverhead := 3/5,
                   reviewOverhead := 3/10, documentation := 1/10 }
  complexity := fun c => match c with
    | .low => 1 | .medium => 3/2 | .high => 5/2
  priority := fun p => match p with
    | .p0Critical => 3/2 | .p1High => 6/5 | .p2Medium => 1 | .p3Low => 4/5
  reviewCycles := 2

-- ===========================================================================
-- Token estimator (src/lib/estimator.ts, class TokenEstimator)
-- ===========================================================================

def estimateContextTokens (cfg : EstimationConfig) (ctx : CodebaseContext) : ℤ :=
  let directTokens : ℤ := (ctx.filesLikelyTouched.map (fun f => (f.lines : ℤ) * 100)).sum
  let relatedTokens : ℤ := (ctx.relatedFiles.map (fun f => (f.lines : ℤ) * 100)).sum
  directTokens + jsRound ((relatedTokens : ℚ) * cfg.multipliers.contextExpansion)

def contextAssumption (ctx : CodebaseContext) : String :=
  toString ctx.filesLikelyTouched.length ++ " direct files, " ++
    toString ctx.relatedFiles.length ++ " related files"

/-- Priority multiplier lookup; the JS fallback `|| 1.0` also replaces a
configured multiplier of 0 (falsy) by 1. -/
def priorityMultOf (cfg : EstimationConfig) (p : Priority) : ℚ :=
  if cfg.priority p = 0 then 1 else cfg.priority p

def estimateImplementationTokens (cfg : EstimationConfig) (issue : Issue)
    (ctx : CodebaseContext) : ℤ :=
  let baseTokens : ℤ := (ctx.totalLines : ℤ) * 2 * 100
  jsRound ((baseTokens : ℚ) * cfg.complexity ctx.avgComplexity *
    priorityMultOf cfg issue.priority)

def complexityName : Complexity → String
  | .low => "low" | .medium => "medium" | .high => "high"

def priorityName : Priority → String
  | .p0Critical => "P0-Critical" | .p1High => "P1-High"
  | .p2Medium => "P2-Medium" | .p3Low => "P3-Low"

/-- JS truthiness of issue.estimate: defined and nonzero. -/
def estimateTruthy (issue : Issue) : Bool :=
  match issue.estimate with
  | some v => v != 0
  | none => false

def calculateConfidence (issue : Issue) (ctx : CodebaseContext) : Confidence :=
  let s1 : Nat := if 3 ≤ ctx.filesLikelyTouched.length then 2
    else if 1 ≤ ctx.filesLikelyTouched.length then 1 else 0
  let s2 : Nat := if 200 < issue.description.length then 2
    else if 50 < issue.description.length then 1 else 0
  let s3 : Nat := if 2 ≤ issue.labels.length then 1 else 0
  let s4 : Nat := if estimateTruthy issue then 1 else 0
  let score := s1 + s2 + s3 + s4
  if 5 ≤ score then .high else if 3 ≤ score then .medium else .low

def estimate (cfg : EstimationConfig) (issue : Issue) (ctx : CodebaseContext) :
    TokenEstimate :=
  let contextTokens := estimateContextTokens cfg ctx
  let implTokens := estimateImplementationTokens cfg issue ctx
  let testTokens := jsRound ((implTokens : ℚ) * cfg.multipliers.testOverhead)
  let reviewTokens := jsRound (((implTokens + testTokens : ℤ) : ℚ) *
    cfg.multipliers.reviewOverhead * cfg.reviewCycles)
  let docTokens := jsRound ((implTokens : ℚ) * cfg.multipliers.documentation)
  let total := 5000 + contextTokens + implTokens + testTokens + reviewTokens + docTokens
  { total := total
    breakdown := { codebaseContext := contextTokens, implementation := implTokens,
                   tests := testTokens, review := reviewTokens,
                   documentation := docTokens }
    confidence := calculateConfidence issue ctx
    assumptions :=
      [ contextAssumption ctx
      , "Complexity: " ++ complexityName ctx.avgComplexity ++ " (" ++
          numStr (cfg.complexity ctx.avgComplexity) ++ "x)"
      , "Priority: " ++ priorityName issue.priority ++ " (" ++
          numStr (priorityMultOf cfg issue.priority) ++ "x)"
      , "Tests estimated at " ++ numStr (cfg.multipliers.testOverhead * 100) ++
          "% of implementation"
      , numStr cfg.reviewCycles ++ " review cycles at " ++
          numStr (cfg.multipliers.reviewOverhead * 100) ++ "% overhead each" ]
    filesAnalyzed := ctx.filesLikelyTouched.length + ctx.relatedFiles.length }

def confidenceScore : Confidence → ℚ
  | .high => 3 | .medium => 2 | .low => 1

/-- aggregateConfidence.  For an empty list JS computes 0/0 = NaN, and both
threshold tests on NaN are false, giving low; in ℚ, 0/0 = 0 gives the same
bucket. -/
def aggregateConfidence (ests : List TokenEstimate) : Confidence :=
  let avg : ℚ := (ests.map (fun e => confidenceScore e.confidence)).sum /
    (ests.length : ℚ)
  if 5/2 ≤ avg then .high else if 3/2 ≤ avg then .medium else .low

/-- Combined touched+related path list of a context, in iteration order. -/
def ctxPaths (c : CodebaseContext) : List String :=
  c.filesLikelyTouched.map (fun f => f.path) ++ c.relatedFiles.map (fun f => f.path)

/-- One step of the allFiles/sharedFiles accumulation: the source tests
membership in allFiles before inserting into it. -/
def scrStep (pr : Finset String × Finset String) (p : String) :
    Finset String × Finset String :=
  (insert p pr.1, if p ∈ pr.1 then insert p pr.2 else pr.2)

def scrState (issues : List Issue) (ctxs : List (String × CodebaseContext)) :
    Finset String × Finset String :=
  issues.foldl (fun pr i =>
    match mapGet ctxs i.id with
    | none => pr
    | some c => (ctxPaths c).foldl scrStep pr) (∅, ∅)

def calculateSharedContextReduction (issues : List Issue)
    (ctxs : List (String × CodebaseContext)) : ℚ :=
  if issues.length < 2 then 0
  else
    let st := scrState issues ctxs
    if st.1.card = 0 then 0
    else min (((st.2.card : ℚ) / (st.1.card : ℚ)) * (7/10)) (1/2)

def createEmptyContext : CodebaseContext :=
  { filesLikelyTouched := [], relatedFiles := [], totalLines := 50,
    avgComplexity := .medium }

def estimateWave (cfg : EstimationConfig) (issues : List Issue)
    (ctxs : List (String × CodebaseContext)) : TokenEstimate :=
  let ests := issues.map (fun i =>
    estimate cfg i ((mapGet ctxs i.id).getD createEmptyContext))
  let sharedContextReduction := calculateSharedContextReduction issues ctxs
  let cc : ℤ := (ests.map (fun e => e.breakdown.codebaseContext)).sum
  let impl : ℤ := (ests.map (fun e => e.breakdown.implementation)).sum
  let tests : ℤ := (ests.map (fun e => e.breakdown.tests)).sum
  let review : ℤ := (ests.map (fun e => e.breakdown.review)).sum
  let doc : ℤ := (ests.map (fun e => e.breakdown.documentation)).sum
  let cc2 : ℤ := jsRound ((cc : ℚ) * (1 - sharedContextReduction))
  let allAssumptions := (ests.map (fun e => e.assumptions)).flatten ++
    (if 0 < sharedContextReduction then
      ["Shared context reduction: " ++ toString (jsRound (sharedContextReduction * 100)) ++ "%"]
     else [])
  { total := cc2 + impl + tests + review + doc
    breakdown := { codebaseContext := cc2, implementation := impl, tests := tests,
                   review := review, documentation := doc }
    confidence := aggregateConfidence ests
    assumptions := jsDedup allAssumptions
    filesAnalyzed := (ests.map (fun e => e.filesAnalyzed)).sum }

-- ===========================================================================
-- Regex engine: a derivative-based matcher for the JS regexes used by the
-- organizer's agent inference and the risk predictor's pattern table
-- ===========================================================================

inductive RE where
  | emp : RE
  | eps : RE
  | pred : (Char → Bool) → RE
  | cat : RE → RE → RE
  | alt : RE → RE → RE
  | star : RE → RE

def reNullable : RE → Bool
  | .emp => false
  | .eps => true
  | .pred _ => false
  | .cat a b => reNullable a && reNullable b
  | .alt a b => reNullable a || reNullable b
  | .star _ => true

def reDeriv : RE → Char → RE
  | .emp, _ => .emp
  | .eps, _ => .emp
  | .pred p, c => if p c then .eps else .emp
  | .cat a b, c =>
      if reNullable a then .alt (.cat (reDeriv a c) b) (reDeriv b c)
      else .cat (reDeriv a c) b
  | .alt a b, c => .alt (reDeriv a c) (reDeriv b c)
  | .star a, c => .cat (reDeriv a c) (.star a)

/-- Does the regex match some prefix of the character list? -/
def reMatchPfx : RE → List Char → Bool
  | r, [] => reNullable r
  | r, c :: cs => reNullable r || reMatchPfx (reDeriv r c) cs

/-- RegExp.prototype.test: unanchored search anywhere in the string. -/
def reTest (r : RE) (hay : List Char) : Bool :=
  hay.tails.any (fun t => reMatchPfx r t)

def reChar (c : Char) : RE := .pred (fun d => d == c)

/-- Case-insensitive character, for regexes carrying the /i flag. -/
def reCharCI (c : Char) : RE := .pred (fun d => d.toLower == c.toLower)

def reLit (s : String) : RE := s.data.foldr (fun c r => .cat (reChar c) r) .eps

def reLitCI (s : String) : RE := s.data.foldr (fun c r => .cat (reCharCI c) r) .eps

def reAlts : List RE → RE
  | [] => .emp
  | x :: xs => xs.foldl .alt x

def reCatL (l : List RE) : RE := l.foldr .cat .eps

/-- JS regex \s character class (Unicode whitespace). -/
def jsWhitespaceChar (c : Char) : Bool :=
  c == ' ' || c == '\t' || c == '\n' || c == '\r' ||
  c.val == 0x0b || c.val == 0x0c || c.val == 0xa0 || c.val == 0x1680 ||
  (0x2000 ≤ c.val && c.val ≤ 0x200a) || c.val == 0x2028 || c.val == 0x2029 ||
  c.val == 0x202f || c.val == 0x205f || c.val == 0x3000 || c.val == 0xfeff

def reWs : RE := .pred jsWhitespaceChar

def rePlus (r : RE) : RE := .cat r (.star r)

def reOpt (r : RE) : RE := .alt .eps r

/-- JS `.` without the s flag: any character except line terminators. -/
def reDot : RE :=
  .pred (fun c => !(c == '\n' || c == '\r' || c.val == 0x2028 || c.val == 0x2029))

def lowerStr (s : String) : String := s.toLower

/-- String.prototype.includes. -/
def strIncludes (hay needle : String) : Bool :=
  hay.data.tails.any (fun t => needle.data.isPrefixOf t)

-- ===========================================================================
-- Wave organizer (src/lib/organizer.ts, class WaveOrganizer)
-- ===========================================================================

inductive AgentType
  | securitySpecialist | backendDeveloper | frontendDeveloper | testEngineer
  | devopsEngineer | documentationWriter | researcher | generalPurpose
  deriving DecidableEq, Repr

structure AgentAssignment where
  issueId : String
  issueIdentifier : String
  agentType : AgentType
  rationale : String
  deriving DecidableEq, Repr

structure WaveGroup where
  issues : List Issue
  sharedFiles : Finset String
  similarity : ℚ

structure Wave where
  number : Nat
  name : String
  description : String
  issues : List Issue
  tokenEstimate : TokenEstimate
  agents : List AgentAssignment
  dependencies : List Nat
  parallelizable : Bool

structure OrganizerConfig where
  similarityThreshold : ℚ
  maxIssuesPerWave : Nat
  tokenBudgetPerWave : ℤ
  respectDependencies : Bool

def DEFAULT_ORGANIZER_CONFIG : OrganizerConfig where
  similarityThreshold := 3/10
  maxIssuesPerWave := 5
  tokenBudgetPerWave := 150000
  respectDependencies := true

def getFilesForIssue (ctxs : List (String × CodebaseContext)) (issue : Issue) :
    Finset String :=
  match mapGet ctxs issue.id with
  | none => ∅
  | some c => (ctxPaths c).toFinset

def jaccardSimilarity (setA setB : Finset String) : ℚ :=
  if setA.card = 0 ∧ setB.card = 0 then 0
  else ((setA ∩ setB).card : ℚ) / ((setA ∪ setB).card : ℚ)

/-- Overlap matrix as the association list of rows the source builds
(self-pairs are pinned to 1.0 before the Jaccard computation). -/
def calculateOverlapMatrix (issues : List Issue)
    (ctxs : List (String × CodebaseContext)) :
    List (String × List (String × ℚ)) :=
  issues.map (fun a =>
    (a.id, issues.map (fun b =>
      (b.id, if a.id = b.id then 1
             else jaccardSimilarity (getFilesForIssue ctxs a) (getFilesForIssue ctxs b)))))

/-- Matrix lookup `matrix.get(a)?.get(b) || 0` (a stored 0 is falsy but the
default is 0 as well, so getD 0 is exact). -/
def matrixGet (m : List (String × List (String × ℚ))) (aId bId : String) : ℚ :=
  ((mapGet m aId).bind (fun row => mapGet row bId)).getD 0

def priorityOrder : Priority → Nat
  | .p0Critical => 0 | .p1High => 1 | .p2Medium => 2 | .p3Low => 3

def sortIssuesByPriority (issues : List Issue) : List Issue :=
  issues.mergeSort (fun a b => priorityOrder a.priority ≤ priorityOrder b.priority)

def pairSims (m : List (String × List (String × ℚ))) : List Issue → List ℚ
  | [] => []
  | x :: xs => xs.map (fun y => matrixGet m x.id y.id) ++ pairSims m xs

def calculateAvgSimilarity (m : List (String × List (String × ℚ)))
    (issues : List Issue) : ℚ :=
  if issues.length < 2 then 1
  else
    let sims := pairSims m issues
    if 0 < sims.length then sims.sum / (sims.length : ℚ) else 0

/-- The filter collecting all not-yet-assigned issues similar to the seed. -/
def gbcSimilar (ocfg : OrganizerConfig) (m : List (String × List (String × ℚ)))
    (all : List Issue) (assigned : List String) (issue : Issue) : List Issue :=
  all.filter (fun other =>
    !(assigned.contains other.id) &&
      (other.id == issue.id ||
        decide (ocfg.similarityThreshold ≤ matrixGet m issue.id other.id)))

def gbcStep (ocfg : OrganizerConfig) (m : List (String × List (String × ℚ)))
    (all : List Issue) : List Issue → List String → List WaveGroup
  | [], _ => []
  | issue :: rest, assigned =>
      if issue.id ∈ assigned then gbcStep ocfg m all rest assigned
      else
        let similar := gbcSimilar ocfg m all assigned issue
        { issues := similar, sharedFiles := ∅,
          similarity := calculateAvgSimilarity m similar } ::
          gbcStep ocfg m all rest (assigned ++ similar.map (fun s => s.id))

def groupByContext (ocfg : OrganizerConfig)
    (m : List (String × List (String × ℚ))) (issues : List Issue) :
    List WaveGroup :=
  let sortedIssues := sortIssuesByPriority issues
  gbcStep ocfg m sortedIssues sortedIssues []

/-- dependencyMap.get(id): the set of parent ids recorded for that issue id. -/
def depSetOf (issues : List Issue) (id : String) : List String :=
  issues.filterMap (fun i => if i.id == id then i.parent else none)

def groupDependsOn (issues : List Issue) (a b : WaveGroup) : Bool :=
  a.issues.any (fun ia => b.issues.any (fun ib => (depSetOf issues ia.id).contains ib.id))

/-- Sort with the dependency comparator; a ≤ b iff the comparator does not
return 1 (a strictly after b). -/
def orderByDependencies (groups : List WaveGroup) (issues : List Issue) :
    List WaveGroup :=
  groups.mergeSort (fun a b =>
    !(groupDependsOn issues a b && !groupDependsOn issues b a))

def splitGo (ecfg : EstimationConfig) (ocfg : OrganizerConfig)
    (ctxs : List (String × CodebaseContext)) (sim : ℚ) :
    List Issue → List Issue → ℤ → List WaveGroup
  | [], currentIssues, _ =>
      if 0 < currentIssues.length then
        [{ issues := currentIssues, sharedFiles := ∅, similarity := sim }]
      else []
  | issue :: rest, currentIssues, currentTokens =>
      let issueEstimate :=
        (estimate ecfg issue ((mapGet ctxs issue.id).getD createEmptyContext)).total
      if ocfg.maxIssuesPerWave ≤ currentIssues.length ∨
          (ocfg.tokenBudgetPerWave < currentTokens + issueEstimate ∧
            0 < currentIssues.length) then
        { issues := currentIssues, sharedFiles := ∅, similarity := sim } ::
          splitGo ecfg ocfg ctxs sim rest [issue] issueEstimate
      else
        splitGo ecfg ocfg ctxs sim rest (currentIssues ++ [issue])
          (currentTokens + issueEstimate)

def splitGroupIfNeeded (ecfg : EstimationConfig) (ocfg : OrganizerConfig)
    (ctxs : List (String × CodebaseContext)) (group : WaveGroup) :
    List WaveGroup :=
  if group.issues.length ≤ ocfg.maxIssuesPerWave ∧
      (estimateWave ecfg group.issues ctxs).total ≤ ocfg.tokenBudgetPerWave then
    [group]
  else
    splitGo ecfg ocfg ctxs group.similarity group.issues [] 0

def capitalize (s : String) : String :=
  match s.data with
  | [] => ""
  | c :: rest => String.mk (c.toUpper :: rest)

def defaultWaveNames : List String :=
  ["Foundation", "Core Features", "Integration", "Enhancement", "Polish",
   "Finalization"]

def generateWaveName (issues : List Issue) (waveNumber : Nat) : String :=
  let names := (issues.map (fun i => i.labels.map (fun l => l.name))).flatten
  let top := (jsDedup names).foldl
    (fun best n => let c := names.count n; if best.2 < c then (n, c) else best)
    ("", 0)
  if top.1 ≠ "" ∧ issues.length ≤ 2 * top.2 then capitalize top.1
  else defaultWaveNames.getD (waveNumber - 1) ("Wave " ++ toString waveNumber)

def generateWaveDescription (group : WaveGroup) : String :=
  "Issues: " ++ String.intercalate ", " (group.issues.map (fun i => i.identifier)) ++
    " (" ++ toString (jsRound (group.similarity * 100)) ++ "% context overlap)"

def findWaveDependencies (issues : List Issue) (existingWaves : List Wave) :
    List Nat :=
  let nums := (issues.map (fun issue =>
    match issue.parent with
    | none => []
    | some pid => existingWaves.filterMap (fun w =>
        if w.issues.any (fun i => i.id == pid) then some w.number else none))).flatten
  (jsDedup nums).mergeSort (fun a b => a ≤ b)

def isParallelizable (issues : List Issue) : Bool :=
  !(issues.any (fun issue =>
    match issue.parent with
    | some pid => issues.any (fun i => i.id == pid)
    | none => false))

def g2wGo (ecfg : EstimationConfig) (ctxs : List (String × CodebaseContext)) :
    List WaveGroup → List Wave → List Wave
  | [], acc => acc
  | subGroup :: rest, acc =>
      let waveNumber := acc.length + 1
      let w : Wave :=
        { number := waveNumber
          name := generateWaveName subGroup.issues waveNumber
          description := generateWaveDescription subGroup
          issues := subGroup.issues
          tokenEstimate := estimateWave ecfg subGroup.issues ctxs
          agents := []
          dependencies := findWaveDependencies subGroup.issues acc
          parallelizable := isParallelizable subGroup.issues }
      g2wGo ecfg ctxs rest (acc ++ [w])

/-- groupsToWaves: the source's two nested loops with a running wave number
are one pass over the concatenated sub-groups, numbering by position. -/
def groupsToWaves (ecfg : EstimationConfig) (ocfg : OrganizerConfig)
    (ctxs : List (String × CodebaseContext)) (groups : List WaveGroup) :
    List Wave :=
  g2wGo ecfg ctxs ((groups.map (splitGroupIfNeeded ecfg ocfg ctxs)).flatten) []

-- ===========================================================================
-- Agent assignment (src/lib/organizer.ts, Step 5)
-- ===========================================================================

def securityLabels : List String := ["security", "auth", "authentication", "vulnerability"]

def securityTextRE : RE := reAlts
  [reLitCI "security", reLitCI "auth", reLitCI "encrypt", reLitCI "credential",
   reLitCI "permission", reLitCI "access control", reLitCI "xss",
   reLitCI "sql injection", reLitCI "csrf"]

def frontendLabels : List String := ["frontend", "ui", "ux", "component", "react", "vue", "css"]

def frontendTextRE : RE := reAlts
  [reLitCI "component", reLitCI "ui", reLitCI "ux", reLitCI "react",
   reLitCI "vue", reLitCI "angular", reLitCI "css", reLitCI "style",
   reLitCI "layout", reLitCI "responsive", reLitCI "accessibility"]

def backendLabels : List String := ["backend", "api", "database", "server"]

def backendTextRE : RE := reAlts
  [reLitCI "api", reLitCI "endpoint", reLitCI "database", reLitCI "query",
   reLitCI "migration", reLitCI "server", reLitCI "graphql", reLitCI "rest"]

def devopsLabels : List String := ["devops", "ci", "cd", "infrastructure", "deployment"]

def devopsTextRE : RE := reAlts
  [reLitCI "ci/cd", reLitCI "pipeline", reLitCI "deploy", reLitCI "docker",
   reLitCI "kubernetes", reLitCI "terraform", reLitCI "aws", reLitCI "gcp",
   reLitCI "azure"]

def testLabels : List String := ["testing", "test", "qa", "e2e"]

def testTextRE : RE := reAlts
  [reLitCI "test", reLitCI "coverage", reLitCI "e2e", reLitCI "integration test",
   reLitCI "unit test", reLitCI "assertion"]

def docLabels : List String := ["documentation", "docs", "readme"]

def docTextRE : RE := reAlts
  [reLitCI "documentation", reLitCI "readme", reLitCI "guide",
   reLitCI "tutorial", reLitCI "api doc"]

def researchLabels : List String := ["spike", "research", "investigation", "exploration"]

def researchTextRE : RE := reAlts
  [reLitCI "research", reLitCI "investigate", reLitCI "explore",
   reLitCI "prototype", reLitCI "poc", reLitCI "proof of concept"]

def issueText (issue : Issue) : String :=
  lowerStr (issue.title ++ " " ++ issue.description)

def issueLabelNames (issue : Issue) : List String :=
  issue.labels.map (fun l => lowerStr l.name)

def categorySignal (lbls : List String) (r : RE) (issue : Issue) : Bool :=
  (issueLabelNames issue).any (fun l => lbls.contains l) ||
    reTest r (issueText issue).data

def securitySignal (issue : Issue) : Bool := categorySignal securityLabels securityTextRE issue
def frontendSignal (issue : Issue) : Bool := categorySignal frontendLabels frontendTextRE issue
def backendSignal (issue : Issue) : Bool := categorySignal backendLabels backendTextRE issue
def devopsSignal (issue : Issue) : Bool := categorySignal devopsLabels devopsTextRE issue
def testSignal (issue : Issue) : Bool := categorySignal testLabels testTextRE issue
def docSignal (issue : Issue) : Bool := categorySignal docLabels docTextRE issue
def researchSignal (issue : Issue) : Bool := categorySignal researchLabels researchTextRE issue

def inferAgentType (issue : Issue) : AgentType :=
  if securitySignal issue then .securitySpecialist
  else if frontendSignal issue then .frontendDeveloper
  else if backendSignal issue then .backendDeveloper
  else if devopsSignal issue then .devopsEngineer
  else if testSignal issue then .testEngineer
  else if docSignal issue then .documentationWriter
  else if researchSignal issue then .researcher
  else .generalPurpose

def generateAgentRationale (agentType : AgentType) : String :=
  match agentType with
  | .securitySpecialist => "Issue involves security-sensitive operations"
  | .backendDeveloper => "Issue focuses on API/database/server-side work"
  | .frontendDeveloper => "Issue involves UI components or user experience"
  | .testEngineer => "Issue is primarily about testing coverage"
  | .devopsEngineer => "Issue involves CI/CD or infrastructure"
  | .documentationWriter => "Issue focuses on documentation updates"
  | .researcher => "Issue requires investigation or prototyping"
  | .generalPurpose => "Issue spans multiple domains"

def assignAgents (issues : List Issue) : List AgentAssignment :=
  issues.map (fun issue =>
    let agentType := inferAgentType issue
    { issueId := issue.id, issueIdentifier := issue.identifier,
      agentType := agentType, rationale := generateAgentRationale agentType })

def organize (ecfg : EstimationConfig) (ocfg : OrganizerConfig)
    (issues : List Issue) (ctxs : List (String × CodebaseContext)) : List Wave :=
  if issues.length = 0 then []
  else
    let overlapMatrix := calculateOverlapMatrix issues ctxs
    let groups := groupByContext ocfg overlapMatrix issues
    let orderedGroups :=
      if ocfg.respectDependencies then orderByDependencies groups issues else groups
    let waves := groupsToWaves ecfg ocfg ctxs orderedGroups
    waves.map (fun w => { w with agents := assignAgents w.issues })

-- ===========================================================================
-- Risk predictor (src/unnamed/part_000, class RiskPredictor)
-- ===========================================================================

inductive RiskCategory
  | externalDependency | breakingChange | integration | performance
  | security | dataIntegrity | resourceConstraint | timeline
  deriving DecidableEq, Repr, Inhabited

inductive RiskLikelihood | low | medium | high
  deriving DecidableEq, Repr, Inhabited

inductive RiskImpact | low | medium | high | critical
  deriving DecidableEq, Repr, Inhabited

/-- Modelled from the spec: the adapter interface module (embedded in
src/adapters/linear.ts) declares no CodebaseContext, even though the risk
predictor imports one from ../adapters/interface; filePaths is the list of
touched/related file paths of spec §6.  The predictor's Issue, by contrast,
is the interface module's Issue and is reused as is. -/
structure RContext where
  filePaths : List String
  deriving DecidableEq, Repr

structure Risk where
  id : String
  category : RiskCategory
  issueId : String
  issueIdentifier : String
  description : String
  likelihood : RiskLikelihood
  impact : RiskImpact
  mitigation : String
  affectedIssues : Option (List String) := none
  suggestedWaveAdjustment : Option String := none
  deriving DecidableEq, Repr, Inhabited

structure RiskPattern where
  category : RiskCategory
  keywords : List String
  filePatterns : List RE
  descriptionPatterns : List RE
  defaultLikelihood : RiskLikelihood
  defaultImpact : RiskImpact
  mitigationTemplate : String

def extDepPattern : RiskPattern :=
    { category := .externalDependency
      keywords := ["api", "external", "third-party", "integration", "webhook", "oauth", "sdk"]
      filePatterns := [reLit "api/", reLit "integrations/", reLit "external/", reLit "clients/"]
      descriptionPatterns :=
        [ reCatL [reLitCI "call", reOpt (reCharCI 's'), rePlus reWs,
            reAlts [reLitCI "external", reLitCI "third-party", reLitCI "remote"]]
        , reCatL [reLitCI "integrat", reAlts [reLitCI "e", reLitCI "ion"],
            rePlus reWs, reLitCI "with"]
        , reCatL [reLitCI "api", rePlus reWs,
            reAlts [reLitCI "call", reLitCI "request", reLitCI "endpoint"]]
        , reAlts [reLitCI "oauth", reLitCI "webhook", reLitCI "stripe",
            reLitCI "github", reLitCI "linear"] ]
      defaultLikelihood := .medium
      defaultImpact := .high
      mitigationTemplate := "Add fallback mechanism, implement retry logic with exponential backoff, cache responses where possible" }

def breakingChangePattern : RiskPattern :=
    { category := .breakingChange
      keywords := ["schema", "migration", "refactor", "rename", "restructure", "breaking"]
      filePatterns := [reLit "schema", reLit "migrations/", reLit "db/", reLit "models/"]
      descriptionPatterns :=
        [ reCatL [reLitCI "chang", reAlts [reLitCI "e", reLitCI "ing"], rePlus reWs,
            reAlts [reLitCI "schema", reLitCI "database", reLitCI "table"]]
        , reCatL [reLitCI "migrat", reAlts [reLitCI "e", reLitCI "ion"]]
        , reCatL [reLitCI "breaking", rePlus reWs, reLitCI "change"]
        , reLitCI "refactor"
        , reCatL [reLitCI "renam", reAlts [reLitCI "e", reLitCI "ing"]] ]
      defaultLikelihood := .high
      defaultImpact := .medium
      mitigationTemplate := "Version the schema, create migration script, add backwards compatibility layer, test rollback procedure" }

def integrationPattern : RiskPattern :=
    { category := .integration
      keywords := ["depends", "dependency", "requires", "blocks", "after", "before"]
      filePatterns := []
      descriptionPatterns :=
        [ reCatL [reLitCI "depends", rePlus reWs, reLitCI "on"]
        , reCatL [reLitCI "require", reOpt (reCharCI 's'), rePlus reWs,
            reAlts [reLitCI "completion", reLitCI "implementation"]]
        , reCatL [reLitCI "after", rePlus reWs, .star reDot, rePlus reWs,
            reLitCI "is", rePlus reWs, reAlts [reLitCI "done", reLitCI "complete"]]
        , reCatL [reLitCI "block", reOpt (reCharCI 's'), rePlus reWs, reLitCI "by"]
        , reLitCI "prerequisite" ]
      defaultLikelihood := .medium
      defaultImpact := .high
      mitigationTemplate := "Define interface contract first, create mock implementations for parallel development, establish clear handoff criteria" }

def performancePattern : RiskPattern :=
    { category := .performance
      keywords := ["performance", "scale", "optimize", "cache", "load", "concurrent"]
      filePatterns := [reLit "cache/", reLit "performance/", reLit "workers/"]
      descriptionPatterns :=
        [ reLitCI "performance"
        , reCatL [reLitCI "scal", reAlts [reLitCI "e", reLitCI "ability", reLitCI "ing"]]
        , reCatL [reLitCI "optimi", reAlts [reLitCI "ze", reLitCI "zation"]]
        , reAlts [reLitCI "slow", reLitCI "fast", reLitCI "speed"]
        , reAlts [reLitCI "concurrent", reLitCI "parallel"]
        , reCatL [reLitCI "large", rePlus reWs,
            reAlts [reLitCI "data", reLitCI "dataset", reLitCI "volume"]] ]
      defaultLikelihood := .medium
      defaultImpact := .medium
      mitigationTemplate := "Add performance benchmarks, implement caching strategy, set up monitoring alerts, define acceptable thresholds" }

def securityPattern : RiskPattern :=
    { category := .security
      keywords := ["security", "auth", "permission", "encrypt", "vulnerability", "credential"]
      filePatterns := [reLit "auth/", reLit "security/", reLit "permissions/"]
      descriptionPatterns :=
        [ reLitCI "security"
        , reCatL [reLitCI "auth",
            reOpt (reAlts [reLitCI "entication", reLitCI "orization"])]
        , reAlts [reLitCI "permission",
            reCatL [reLitCI "access", rePlus reWs, reLitCI "control"]]
        , reAlts [reLitCI "encrypt", reLitCI "decrypt"]
        , reCatL [reLitCI "vulnerabilit", reAlts [reLitCI "y", reLitCI "ies"]]
        , reAlts [reLitCI "credential", reLitCI "secret", reLitCI "key"] ]
      defaultLikelihood := .medium
      defaultImpact := .critical
      mitigationTemplate := "Conduct security review, add threat model, implement defense in depth, ensure secrets management compliance" }

def dataIntegrityPattern : RiskPattern :=
    { category := .dataIntegrity
      keywords := ["data", "consistency", "transaction", "atomic", "rollback"]
      filePatterns := [reLit "db/", reLit "repositories/", reLit "transactions/"]
      descriptionPatterns :=
        [ reCatL [reLitCI "data", rePlus reWs,
            reAlts [reLitCI "integrity", reLitCI "consistency"]]
        , reLitCI "transaction"
        , reLitCI "atomic"
        , reLitCI "rollback"
        , reCatL [reLitCI "race", rePlus reWs, reLitCI "condition"] ]
      defaultLikelihood := .low
      defaultImpact := .high
      mitigationTemplate := "Use database transactions, implement idempotency, add data validation layer, create rollback procedures" }

def resourceConstraintPattern : RiskPattern :=
    { category := .resourceConstraint
      keywords := ["memory", "cpu", "disk", "quota", "limit", "timeout"]
      filePatterns := []
      descriptionPatterns :=
        [ reAlts [reLitCI "memory", reLitCI "cpu", reLitCI "disk"]
        , reAlts [reLitCI "quota", reLitCI "limit"]
        , reLitCI "timeout"
        , reCatL [reLitCI "resource", rePlus reWs,
            reAlts [reLitCI "constraint", reLitCI "limit"]]
        , reCatL [reLitCI "out", rePlus reWs, reLitCI "of", rePlus reWs,
            reAlts [reLitCI "memory", reLitCI "space"]] ]
      defaultLikelihood := .low
      defaultImpact := .medium
      mitigationTemplate := "Add resource monitoring, implement graceful degradation, set up alerts, define resource budgets" }

def timelinePattern : RiskPattern :=
    { category := .timeline
      keywords := ["deadline", "urgent", "critical", "blocker", "priority"]
      filePatterns := []
      descriptionPatterns :=
        [ reLitCI "deadline"
        , reAlts [reLitCI "urgent", reLitCI "critical", reLitCI "blocker"]
        , reCatL [reLitCI "time", rePlus reWs,
            reAlts [reLitCI "sensitive", reLitCI "critical"]]
        , reCatL [reLitCI "must", rePlus reWs, reLitCI "be", rePlus reWs,
            reAlts [reLitCI "done", reLitCI "complete"]] ]
      defaultLikelihood := .medium
      defaultImpact := .medium
      mitigationTemplate := "Break into smaller deliverables, identify MVP scope, establish checkpoints, prepare contingency plan" }

def RISK_PATTERNS : List RiskPattern :=
  [ extDepPattern, breakingChangePattern, integrationPattern,
    performancePattern, securityPattern, dataIntegrityPattern,
    resourceConstraintPattern, timelinePattern ]

/-- issue.labels?.join(' '): the labels array holds Label records, and JS
Array.prototype.join stringifies each record as "[object Object]", so
label names never reach the joined string. -/
def jsLabelJoin (labels : List Label) : String :=
  String.intercalate " " (labels.map (fun _ => "[object Object]"))

/-- The lowercase haystack built from title, description and joined labels. -/
def riskContent (issue : Issue) : String :=
  lowerStr (issue.title ++ " " ++ issue.description ++ " " ++
    jsLabelJoin issue.labels)

def hasKeyword (pat : RiskPattern) (content : String) : Bool :=
  pat.keywords.any (fun kw => strIncludes content kw)

def hasFileMatch (pat : RiskPattern) (files : List String) : Bool :=
  pat.filePatterns.any (fun fp => files.any (fun f => reTest fp f.data))

def hasDescriptionMatch (pat : RiskPattern) (content : String) : Bool :=
  pat.descriptionPatterns.any (fun dp => reTest dp content.data)

def ctxFilePaths (ctx : Option RContext) : List String :=
  (ctx.map (fun c => c.filePaths)).getD []

/-- Any of the three per-pattern signals fires. -/
def signalFires (pat : RiskPattern) (issue : Issue) (ctx : Option RContext) : Bool :=
  hasKeyword pat (riskContent issue) ||
    hasFileMatch pat (ctxFilePaths ctx) ||
    hasDescriptionMatch pat (riskContent issue)

/-- issue.priority === 'urgent' || issue.priority === 'critical': the
priority is the interface module's closed P0-P3 string union, none of
whose values equals either literal, so this is always false. -/
def urgentOrCritical (issue : Issue) : Bool :=
  priorityName issue.priority == "urgent" || priorityName issue.priority == "critical"

def bumpImpact : RiskImpact → RiskImpact
  | .medium => .high
  | .high => .critical
  | i => i

def categoryDescription : RiskCategory → String
  | .externalDependency => "relies on external service/API"
  | .breakingChange => "may introduce breaking changes"
  | .integration => "has dependencies on other issues"
  | .performance => "may impact system performance"
  | .security => "has security implications"
  | .dataIntegrity => "may affect data consistency"
  | .resourceConstraint => "may hit resource limits"
  | .timeline => "has timeline constraints"

def generateRiskDescription (pat : RiskPattern) (issue : Issue)
    (ctx : Option RContext) : String :=
  let fs := (ctxFilePaths ctx).take 3
  issue.identifier ++ " " ++ categoryDescription pat.category ++ " (affects: " ++
    (if fs.isEmpty then "multiple files" else String.intercalate ", " fs) ++ ")"

/-- The test-file regex of generateMitigation anchored at the end of the
path: a path matches iff it ends in .test.ts/.test.js/.spec.ts/.spec.js. -/
def isTestFilePath (f : String) : Bool :=
  f.endsWith ".test.ts" || f.endsWith ".test.js" ||
    f.endsWith ".spec.ts" || f.endsWith ".spec.js"

def generateMitigation (pat : RiskPattern) (issue : Issue)
    (ctx : Option RContext) : String :=
  let paths := ctxFilePaths ctx
  pat.mitigationTemplate ++
    (if 0 < paths.length ∧ (paths.filter isTestFilePath).length = 0 then
      ". Add test coverage for affected files" else "") ++
    (if urgentOrCritical issue then
      ". Consider spike/POC first given high priority" else "")

def mkRisk (pat : RiskPattern) (issue : Issue) (ctx : Option RContext)
    (n : Nat) (kw fm dm : Bool) : Risk :=
  let evidenceCount : Nat :=
    (if kw then 1 else 0) + (if fm then 1 else 0) + (if dm then 1 else 0)
  let likelihood :=
    if 3 ≤ evidenceCount then RiskLikelihood.high
    else if evidenceCount = 1 ∧ pat.defaultLikelihood = .high then .medium
    else pat.defaultLikelihood
  let impact :=
    if urgentOrCritical issue then bumpImpact pat.defaultImpact
    else pat.defaultImpact
  { id := "RISK-" ++ toString n
    category := pat.category
    issueId := issue.id
    issueIdentifier := issue.identifier
    description := generateRiskDescription pat issue ctx
    likelihood := likelihood
    impact := impact
    mitigation := generateMitigation pat issue ctx }

def aiGo (issue : Issue) (ctx : Option RContext) :
    List RiskPattern → Nat → List Risk
  | [], _ => []
  | pat :: rest, n =>
      let kw := hasKeyword pat (riskContent issue)
      let fm := hasFileMatch pat (ctxFilePaths ctx)
      let dm := hasDescriptionMatch pat (riskContent issue)
      if kw || fm || dm then
        mkRisk pat issue ctx n kw fm dm :: aiGo issue ctx rest (n + 1)
      else aiGo issue ctx rest n

/-- Per-issue pattern matching (RiskPredictor.analyzeIssue); emitted risk
ids are RISK-(startId + number of risks already emitted for the issue). -/
def analyzeIssue (issue : Issue) (ctx : Option RContext) (startId : Nat) :
    List Risk :=
  aiGo issue ctx RISK_PATTERNS startId

def impactWeight : RiskImpact → ℚ
  | .low => 1 | .medium => 2 | .high => 4 | .critical => 8

def likelihoodWeight : RiskLikelihood → ℚ
  | .low => 1 | .medium => 2 | .high => 3

def riskWeight (r : Risk) : ℚ := impactWeight r.impact * likelihoodWeight r.likelihood

/-- RiskPredictor.calculateRiskScore: normalized against 10*8*3 = 240 and
clamped to 100. -/
def calculateRiskScore (risks : List Risk) : ℤ :=
  if risks.length = 0 then 0
  else min 100 (jsRound ((risks.map riskWeight).sum / 240 * 100))

-- ===========================================================================
-- Concrete inputs used by witnesses and counterexamples
-- ===========================================================================

/-- The spec's concrete estimator scenario: a P1-High issue with a
200-line medium-complexity context and no touched/related files. -/
def scenIssue : Issue :=
  { id := "I1", identifier := "ISS-1", title := "Scenario issue",
    description := "", priority := .p1High, labels := [] }

def scenCtx : CodebaseContext :=
  { filesLikelyTouched := [], relatedFiles := [], totalLines := 200,
    avgComplexity := .medium }

def scenCtxs : List (String × CodebaseContext) := [("I1", scenCtx)]

def fileA : FileInfo :=
  { path := "src/shared.ts", lines := 10, language := "typescript",
    complexity := .low }

def fileB : FileInfo :=
  { path := "src/other.ts", lines := 20, language := "typescript",
    complexity := .low }

/-- Two issues sharing exactly 1 of 2 distinct touched files. -/
def shIssue1 : Issue :=
  { id := "S1", identifier := "ISS-S1", title := "", description := "",
    priority := .p2Medium, labels := [] }

def shIssue2 : Issue :=
  { id := "S2", identifier := "ISS-S2", title := "", description := "",
    priority := .p2Medium, labels := [] }

def shCtxs : List (String × CodebaseContext) :=
  [ ("S1", { filesLikelyTouched := [fileA], relatedFiles := [],
             totalLines := 10, avgComplexity := .low })
  , ("S2", { filesLikelyTouched := [fileA, fileB], relatedFiles := [],
             totalLines := 30, avgComplexity := .low }) ]

/-- Risk-predictor issue whose haystack contains the keyword "api" and
whose priority is the data model's highest value P0-Critical. -/
def rIssueP0 : Issue :=
  { id := "R1", identifier := "ISS-R1", title := "api", description := "",
    priority := .p0Critical, labels := [] }

/-- Same content at priority P1-High. -/
def rIssueP1 : Issue :=
  { id := "R2", identifier := "ISS-R2", title := "api", description := "",
    priority := .p1High, labels := [] }

/-- Follows the spec's words, not the source (refinement reference for the
haystack): title, description and the labels' NAMES concatenated. -/
def specHaystack (issue : Issue) : String :=
  lowerStr (issue.title ++ " " ++ issue.description ++ " " ++
    String.intercalate " " (issue.labels.map (fun l => l.name)))

/-- Issue whose only keyword evidence is a label named "api". -/
def labApiIssue : Issue :=
  { id := "L1", identifier := "ISS-L1", title := "x", description := "",
    priority := .p2Medium, labels := [{ name := "api" }] }

/-- Issue carrying both security and frontend labels. -/
def secFeIssue : Issue :=
  { id := "A1", identifier := "ISS-A1", title := "Harden login form",
    description := "", priority := .p2Medium,
    labels := [{ name := "security" }, { name := "frontend" }] }

/-- Issue matching none of the agent signal sets. -/
def plainIssue : Issue :=
  { id := "A2", identifier := "ISS-A2", title := "Tidy import ordering",
    description := "", priority := .p3Low, labels := [] }

/-- The single risk the predictor emits for rIssueP1. -/
def c7risk : Risk := (analyzeIssue rIssueP1 none 1).headI

/-- The ordered category/signal table of inferAgentType, as data. -/
def agentSignalTable : List (AgentType × (Issue → Bool)) :=
  [ (.securitySpecialist, securitySignal)
  , (.frontendDeveloper, frontendSignal)
  , (.backendDeveloper, backendSignal)
  , (.devopsEngineer, devopsSignal)
  , (.testEngineer, testSignal)
  , (.documentationWriter, docSignal)
  , (.researcher, researchSignal) ]

/-- The path list an issue contributes to the shared-context scan (empty
when the issue has no context entry). -/
def pathsOfIssue (ctxs : List (String × CodebaseContext)) (i : Issue) :
    List String :=
  match mapGet ctxs i.id with
  | some c => ctxPaths c
  | none => []

/-- All distinct file paths across the issues' contexts. -/
def distinctContextPaths (issues : List Issue)
    (ctxs : List (String × CodebaseContext)) : Finset String :=
  ((issues.map (pathsOfIssue ctxs)).flatten).toFinset

/-- The distinct file paths appearing in at least two issues' contexts. -/
def sharedContextPaths (issues : List Issue)
    (ctxs : List (String × CodebaseContext)) : Finset String :=
  (distinctContextPaths issues ctxs).filter
    (fun p => 2 ≤ issues.countP (fun i => decide (p ∈ pathsOfIssue ctxs i)))

-- ===========================================================================
-- Helper lemmas
-- ===========================================================================

theorem jsRound_intCast (n : ℤ) : jsRound ((n : ℚ)) = n := by
  unfold jsRound
  rw [Int.floor_int_add]
  norm_num

theorem estimate_total_eq (cfg : EstimationConfig) (issue : Issue)
    (ctx : CodebaseContext) :
    (estimate cfg issue ctx).total = 5000 +
      ((estimate cfg issue ctx).breakdown.codebaseContext +
       (estimate cfg issue ctx).breakdown.implementation +
       (estimate cfg issue ctx).breakdown.tests +
       (estimate cfg issue ctx).breakdown.review +
       (estimate cfg issue ctx).breakdown.documentation) := by
  simp only [estimate]
  ring

theorem aggregateConfidence_singleton (e : TokenEstimate) :
    aggregateConfidence [e] = e.confidence := by
  unfold aggregateConfidence
  cases h : e.confidence <;> simp [h, confidenceScore] <;> norm_num

theorem estimateWave_singleton_parts (cfg : EstimationConfig) (issue : Issue)
    (ctxs : List (String × CodebaseContext)) :
    (estimateWave cfg [issue] ctxs).breakdown =
      (estimate cfg issue ((mapGet ctxs issue.id).getD createEmptyContext)).breakdown ∧
    (estimateWave cfg [issue] ctxs).confidence =
      (estimate cfg issue ((mapGet ctxs issue.id).getD createEmptyContext)).confidence ∧
    (estimateWave cfg [issue] ctxs).total =
      (estimate cfg issue ((mapGet ctxs issue.id).getD createEmptyContext)).total - 5000 := by
  have hred : calculateSharedContextReduction [issue] ctxs = 0 := by
    simp [calculateSharedContextReduction]
  have htot := estimate_total_eq cfg issue ((mapGet ctxs issue.id).getD createEmptyContext)
  unfold estimateWave
  simp only [List.map_cons, List.map_nil, List.sum_cons, List.sum_nil, hred,
    add_zero, sub_zero, mul_one, jsRound_intCast, aggregateConfidence_singleton]
  refine ⟨trivial, trivial, ?_⟩
  omega

set_option maxHeartbeats 4000000 in
/-- C2: for every config, issue and context, estimate's total equals the
5,000-token base overhead plus the sum of the five breakdown components;
at the spec's concrete scenario (P1-High, totalLines 200, medium
complexity, no touched/related files) the breakdown is
(0, 72000, 43200, 69120, 7200) with total 196520. -/
theorem C2_estimate_total_and_scenario :
    (∀ (cfg : EstimationConfig) (issue : Issue) (ctx : CodebaseContext),
      (estimate cfg issue ctx).total = 5000 +
        ((estimate cfg issue ctx).breakdown.codebaseContext +
         (estimate cfg issue ctx).breakdown.implementation +
         (estimate cfg issue ctx).breakdown.tests +
         (estimate cfg issue ctx).breakdown.review +
         (estimate cfg issue ctx).breakdown.documentation)) ∧
    (estimate DEFAULT_CONFIG scenIssue scenCtx).breakdown =
      { codebaseContext := 0, implementation := 72000, tests := 43200,
        review := 69120, documentation := 7200 } ∧
    (estimate DEFAULT_CONFIG scenIssue scenCtx).total = 196520 := by
  refine ⟨estimate_total_eq, ?_, ?_⟩
  · with_unfolding_all rfl
  · with_unfolding_all rfl

set_option maxHeartbeats 4000000 in
/-- C10: estimateWave on the empty issue list returns total 0, an
all-zero breakdown, confidence low, no assumptions and filesAnalyzed 0,
for every context map (and configuration). -/
theorem C10_estimateWave_empty (cfg : EstimationConfig)
    (ctxs : List (String × CodebaseContext)) :
    estimateWave cfg [] ctxs =
      { total := 0,
        breakdown := { codebaseContext := 0, implementation := 0, tests := 0,
                       review := 0, documentation := 0 },
        confidence := .low, assumptions := [], filesAnalyzed := 0 } := by
  have hred : calculateSharedContextReduction [] ctxs = 0 := by
    simp [calculateSharedContextReduction]
  unfold estimateWave
  simp [hred, aggregateConfidence, confidenceScore, jsDedup, jsDedupGo, jsRound]
  norm_num

/-- C1 (amended): estimateWave of a singleton list agrees with estimate of
that issue component-wise on the breakdown and on confidence, and the
shared-context discount is 0 for fewer than 2 issues; the totals however
differ by exactly the 5,000-token base overhead, which estimateWave does
not include at all (wave total = estimate total - 5000). -/
theorem C1_estimateWave_singleton (cfg : EstimationConfig) (issue : Issue)
    (ctxs : List (String × CodebaseContext)) :
    calculateSharedContextReduction [issue] ctxs = 0 ∧
    (estimateWave cfg [issue] ctxs).breakdown =
      (estimate cfg issue ((mapGet ctxs issue.id).getD createEmptyContext)).breakdown ∧
    (estimateWave cfg [issue] ctxs).confidence =
      (estimate cfg issue ((mapGet ctxs issue.id).getD createEmptyContext)).confidence ∧
    (estimateWave cfg [issue] ctxs).total =
      (estimate cfg issue ((mapGet ctxs issue.id).getD createEmptyContext)).total - 5000 := by
  refine ⟨?_, estimateWave_singleton_parts cfg issue ctxs⟩
  simp [calculateSharedContextReduction]

set_option maxHeartbeats 4000000 in
/-- C1 counterexample: at the spec's own concrete scenario the singleton
wave total (191,520) differs from the per-issue estimate total (196,520),
refuting the claim that the totals are equal with the base overhead
charged once per wave. -/
theorem C1_counterexample :
    ¬ ((estimateWave DEFAULT_CONFIG [scenIssue] scenCtxs).total =
        (estimate DEFAULT_CONFIG scenIssue
          ((mapGet scenCtxs scenIssue.id).getD createEmptyContext)).total) := by
  have h1 : (estimateWave DEFAULT_CONFIG [scenIssue] scenCtxs).total = 191520 := by
    with_unfolding_all rfl
  have h2 : (estimate DEFAULT_CONFIG scenIssue
      ((mapGet scenCtxs scenIssue.id).getD createEmptyContext)).total = 196520 := by
    with_unfolding_all rfl
  rw [h1, h2]
  decide

theorem jsRound_zero : jsRound 0 = 0 := by
  unfold jsRound
  norm_num

theorem jsRound_nonneg {q : ℚ} (h : 0 ≤ q) : 0 ≤ jsRound q := by
  unfold jsRound
  rw [Int.le_floor]
  push_cast
  linarith

theorem jsRound_le_jsRound {q r : ℚ} (h : q ≤ r) : jsRound q ≤ jsRound r := by
  unfold jsRound
  exact Int.floor_le_floor (by linarith)

theorem riskWeight_nonneg (r : Risk) : 0 ≤ riskWeight r := by
  unfold riskWeight
  cases r.impact <;> cases r.likelihood <;>
    simp [impactWeight, likelihoodWeight]

theorem riskSum_nonneg (risks : List Risk) : 0 ≤ (risks.map riskWeight).sum := by
  induction risks with
  | nil => simp
  | cons a l ih =>
      simp only [List.map_cons, List.sum_cons]
      have := riskWeight_nonneg a
      linarith

theorem calculateRiskScore_formula (risks : List Risk) :
    calculateRiskScore risks =
      min 100 (jsRound (100 * (risks.map riskWeight).sum / 240)) := by
  unfold calculateRiskScore
  split
  · rename_i h
    have hnil : risks = [] := List.length_eq_zero.mp h
    subst hnil
    simp [jsRound_zero]
  · congr 1
    congr 1
    ring

theorem calculateRiskScore_bounds (risks : List Risk) :
    0 ≤ calculateRiskScore risks ∧ calculateRiskScore risks ≤ 100 := by
  rw [calculateRiskScore_formula]
  constructor
  · refine le_min (by norm_num) (jsRound_nonneg ?_)
    have := riskSum_nonneg risks
    positivity
  · exact min_le_left _ _

theorem calculateRiskScore_mono (risks : List Risk) (r : Risk) :
    calculateRiskScore risks ≤ calculateRiskScore (risks ++ [r]) := by
  rw [calculateRiskScore_formula, calculateRiskScore_formula]
  refine min_le_min le_rfl (jsRound_le_jsRound ?_)
  have hw := riskWeight_nonneg r
  have hsum : (risks.map riskWeight).sum ≤ ((risks ++ [r]).map riskWeight).sum := by
    simp [List.map_append, List.sum_append]
    linarith
  gcongr

/-- C5: calculateRiskScore equals min(100, round(100 x sum of
impactWeight x likelihoodWeight / 240)) for every risk list, is always in
[0, 100], and appending a further risk never decreases it. -/
theorem C5_riskScore :
    (∀ risks : List Risk, calculateRiskScore risks =
        min 100 (jsRound (100 * (risks.map riskWeight).sum / 240))) ∧
    (∀ risks : List Risk,
        0 ≤ calculateRiskScore risks ∧ calculateRiskScore risks ≤ 100) ∧
    (∀ (risks : List Risk) (r : Risk),
        calculateRiskScore risks ≤ calculateRiskScore (risks ++ [r])) :=
  ⟨calculateRiskScore_formula, calculateRiskScore_bounds, calculateRiskScore_mono⟩

theorem jaccard_symm (A B : Finset String) :
    jaccardSimilarity A B = jaccardSimilarity B A := by
  by_cases hA : A.card = 0 <;> by_cases hB : B.card = 0 <;>
    simp [jaccardSimilarity, hA, hB, Finset.inter_comm, Finset.union_comm]

theorem jaccard_bounds (A B : Finset String) :
    0 ≤ jaccardSimilarity A B ∧ jaccardSimilarity A B ≤ 1 := by
  unfold jaccardSimilarity
  split
  · norm_num
  · rename_i h
    have hne : (A ∪ B).Nonempty := by
      rcases not_and_or.mp h with h1 | h1
      · exact (Finset.card_pos.mp (Nat.pos_of_ne_zero h1)).mono
          Finset.subset_union_left
      · exact (Finset.card_pos.mp (Nat.pos_of_ne_zero h1)).mono
          Finset.subset_union_right
    have hpos : (0 : ℚ) < ((A ∪ B).card : ℚ) := by
      exact_mod_cast Finset.card_pos.mpr hne
    constructor
    · positivity
    · rw [div_le_one hpos]
      exact_mod_cast Finset.card_le_card Finset.inter_subset_union

theorem jaccard_empty : jaccardSimilarity ∅ ∅ = 0 := by
  simp [jaccardSimilarity]

theorem matrix_self_pair (issues : List Issue)
    (ctxs : List (String × CodebaseContext))
    (row : String × List (String × ℚ)) (entry : String × ℚ)
    (hrow : row ∈ calculateOverlapMatrix issues ctxs) (hentry : entry ∈ row.2)
    (heq : entry.1 = row.1) : entry.2 = 1 := by
  unfold calculateOverlapMatrix at hrow
  rcases List.mem_map.mp hrow with ⟨a, _, rfl⟩
  rcases List.mem_map.mp hentry with ⟨b, _, rfl⟩
  simp only at heq
  simp [heq.symm]

/-- C4: Jaccard similarity is symmetric, always in [0,1], and 0 on two
empty sets; in the overlap matrix every self-pair entry (an entry whose
key equals its row's issue id) is 1.0. -/
theorem C4_jaccard :
    (∀ A B : Finset String, jaccardSimilarity A B = jaccardSimilarity B A) ∧
    (∀ A B : Finset String,
        0 ≤ jaccardSimilarity A B ∧ jaccardSimilarity A B ≤ 1) ∧
    jaccardSimilarity ∅ ∅ = 0 ∧
    (∀ (issues : List Issue) (ctxs : List (String × CodebaseContext))
        (row : String × List (String × ℚ)) (entry : String × ℚ),
        row ∈ calculateOverlapMatrix issues ctxs → entry ∈ row.2 →
        entry.1 = row.1 → entry.2 = 1) :=
  ⟨jaccard_symm, jaccard_bounds, jaccard_empty, matrix_self_pair⟩

set_option maxHeartbeats 4000000 in
/-- C4 witness: the theorem applied to the concrete one-issue overlap
matrix, whose only row is the self-pair ("S1", 1.0). -/
theorem C4_witness : (("S1", (1 : ℚ)) : String × ℚ).2 = 1 := by
  have hm : calculateOverlapMatrix [shIssue1] shCtxs =
      [("S1", [("S1", (1 : ℚ))])] := by
    with_unfolding_all rfl
  exact C4_jaccard.2.2.2 [shIssue1] shCtxs ("S1", [("S1", (1 : ℚ))])
    ("S1", (1 : ℚ)) (hm ▸ List.mem_singleton_self _)
    (List.mem_singleton_self _) rfl

theorem signalFires_def (pat : RiskPattern) (issue : Issue) (ctx : Option RContext) :
    signalFires pat issue ctx =
      (hasKeyword pat (riskContent issue) || hasFileMatch pat (ctxFilePaths ctx) ||
        hasDescriptionMatch pat (riskContent issue)) := rfl

theorem riskPatterns_category_nodup :
    (RISK_PATTERNS.map (fun p => p.category)).Nodup := by
  simp [RISK_PATTERNS, extDepPattern, breakingChangePattern, integrationPattern,
    performancePattern, securityPattern, dataIntegrityPattern,
    resourceConstraintPattern, timelinePattern]

theorem aiGo_countP_zero (issue : Issue) (ctx : Option RContext)
    (pats : List RiskPattern) (c : RiskCategory) (n : Nat)
    (h : c ∉ pats.map (fun p => p.category)) :
    (aiGo issue ctx pats n).countP (fun r => r.category == c) = 0 := by
  induction pats generalizing n with
  | nil => simp [aiGo]
  | cons p rest ih =>
      have hpc : p.category ≠ c := by
        intro he
        exact h (by simp [he])
      have hrest : c ∉ rest.map (fun p => p.category) := by
        intro he
        exact h (by simp; exact Or.inr (by simpa using he))
      simp only [aiGo]
      split
      · rw [List.countP_cons]
        simp [mkRisk, hpc, ih _ hrest]
      · exact ih _ hrest

theorem aiGo_countP (issue : Issue) (ctx : Option RContext)
    (pats : List RiskPattern) (pat : RiskPattern) (n : Nat)
    (hmem : pat ∈ pats) (hnd : (pats.map (fun p => p.category)).Nodup) :
    (aiGo issue ctx pats n).countP (fun r => r.category == pat.category) =
      if signalFires pat issue ctx then 1 else 0 := by
  induction pats generalizing n with
  | nil => cases hmem
  | cons p rest ih =>
      simp only [List.map_cons, List.nodup_cons] at hnd
      obtain ⟨hnotin, hndrest⟩ := hnd
      rcases List.mem_cons.mp hmem with heq | hrest
      · subst heq
        simp only [aiGo]
        split
        · rename_i hcond
          rw [List.countP_cons]
          have hz := aiGo_countP_zero issue ctx rest pat.category (n + 1)
            (by simpa using hnotin)
          have hs : signalFires pat issue ctx = true := hcond
          simp [mkRisk, hz, hs]
        · rename_i hcond
          have hz := aiGo_countP_zero issue ctx rest pat.category n
            (by simpa using hnotin)
          have hs : signalFires pat issue ctx = false := by
            rw [signalFires_def]
            exact Bool.of_not_eq_true hcond
          simp [hz, hs]
      · have hpc : p.category ≠ pat.category := by
          intro he
          exact hnotin (he ▸ List.mem_map_of_mem (fun q => q.category) hrest)
        simp only [aiGo]
        split
        · rw [List.countP_cons]
          simp [mkRisk, hpc, ih (n + 1) hrest hndrest]
        · exact ih n hrest hndrest

theorem aiGo_issueId (issue : Issue) (ctx : Option RContext)
    (pats : List RiskPattern) (n : Nat) :
    ∀ r ∈ aiGo issue ctx pats n, r.issueId = issue.id := by
  induction pats generalizing n with
  | nil => simp [aiGo]
  | cons p rest ih =>
      simp only [aiGo]
      split
      · intro r hr
        rcases List.mem_cons.mp hr with heq | h
        · subst heq; rfl
        · exact ih (n + 1) r h
      · exact ih n

/-- C6 (amended): per-issue pattern matching emits exactly one Risk
carrying a given pattern's category iff at least one of the three signals
(keyword containment, a context file path matching a file regex, a
description regex match) fires, and every emitted risk references the
analyzed issue.  The keyword and description signals are evaluated over
the lowercase concatenation of title, description and the JS
stringification of the labels array, in which each Label record
contributes the constant "[object Object]", so label names never
participate in matching. -/
theorem C6_pattern_match (issue : Issue) (ctx : Option RContext)
    (startId : Nat) (pat : RiskPattern) (hmem : pat ∈ RISK_PATTERNS) :
    ((analyzeIssue issue ctx startId).countP
        (fun r => r.category == pat.category) =
      if signalFires pat issue ctx then 1 else 0) ∧
    (∀ r ∈ analyzeIssue issue ctx startId, r.issueId = issue.id) :=
  ⟨aiGo_countP issue ctx RISK_PATTERNS pat startId hmem
      riskPatterns_category_nodup,
    aiGo_issueId issue ctx RISK_PATTERNS startId⟩

set_option maxHeartbeats 8000000 in
/-- C6 counterexample: an issue whose only keyword evidence is a label
named "api".  Under the claim's reading of the haystack (label names
concatenated after title and description) the external-dependency
keyword signal fires, yet the predictor emits no external-dependency
risk, because in the haystack it actually matches against each label
stringifies to "[object Object]". -/
theorem C6_counterexample :
    "api" ∈ extDepPattern.keywords ∧
    strIncludes (specHaystack labApiIssue) "api" = true ∧
    (analyzeIssue labApiIssue none 1).countP
      (fun r => r.category == extDepPattern.category) = 0 := by
  refine ⟨List.mem_cons_self _ _, ?_, ?_⟩
  · with_unfolding_all rfl
  · with_unfolding_all rfl

set_option maxHeartbeats 8000000 in
/-- C6 witness: the amended theorem applied to a concrete issue whose
haystack contains the keyword "api"; the external-dependency signal fires
and exactly one external-dependency risk is counted. -/
theorem C6_witness :
    ((analyzeIssue rIssueP1 none 1).countP
        (fun r => r.category == extDepPattern.category) =
      if signalFires extDepPattern rIssueP1 none then 1 else 0) ∧
    signalFires extDepPattern rIssueP1 none = true := by
  refine ⟨(C6_pattern_match rIssueP1 none 1 extDepPattern ?_).1, ?_⟩
  · exact List.mem_cons_self _ _
  · with_unfolding_all rfl

theorem aiGo_mem_shape (issue : Issue) (ctx : Option RContext)
    (pats : List RiskPattern) (n : Nat) (r : Risk)
    (hr : r ∈ aiGo issue ctx pats n) :
    ∃ p ∈ pats, r.category = p.category ∧
      r.impact = (if urgentOrCritical issue then bumpImpact p.defaultImpact
        else p.defaultImpact) := by
  induction pats generalizing n with
  | nil => simp [aiGo] at hr
  | cons p rest ih =>
      simp only [aiGo] at hr
      by_cases hc : (hasKeyword p (riskContent issue) ||
          hasFileMatch p (ctxFilePaths ctx) ||
          hasDescriptionMatch p (riskContent issue)) = true
      · rw [if_pos hc] at hr
        rcases List.mem_cons.mp hr with heq | h
        · exact ⟨p, List.mem_cons_self _ _, by rw [heq]; exact ⟨rfl, rfl⟩⟩
        · obtain ⟨q, hq, h1, h2⟩ := ih (n + 1) h
          exact ⟨q, List.mem_cons_of_mem _ hq, h1, h2⟩
      · rw [if_neg hc] at hr
        obtain ⟨q, hq, h1, h2⟩ := ih n hr
        exact ⟨q, List.mem_cons_of_mem _ hq, h1, h2⟩

/-- The escalation guard is dead code: no value of the closed P0-P3
priority domain stringifies to the literal 'urgent' or 'critical'. -/
theorem urgentOrCritical_false (issue : Issue) : urgentOrCritical issue = false := by
  unfold urgentOrCritical
  cases issue.priority <;> rfl

/-- C7 (amended): for every issue - whose priority is necessarily one of
the data model's closed domain P0-Critical/P1-High/P2-Medium/P3-Low,
including the highest value P0-Critical - every Risk the per-issue
pattern matching emits for a pattern carries exactly that pattern's
default impact: the one-step escalation compares the priority against
the literal strings urgent/critical, which no domain value equals, so
the escalation branch is unreachable. -/
theorem C7_impact_default (issue : Issue) (ctx : Option RContext)
    (startId : Nat) (pat : RiskPattern) (risk : Risk)
    (hmem : pat ∈ RISK_PATTERNS)
    (hr : risk ∈ analyzeIssue issue ctx startId)
    (hcat : risk.category = pat.category) :
    risk.impact = pat.defaultImpact := by
  obtain ⟨q, hq, h1, h2⟩ := aiGo_mem_shape issue ctx RISK_PATTERNS startId risk hr
  rw [urgentOrCritical_false, if_neg (by simp)] at h2
  have hqp : q = pat :=
    List.inj_on_of_nodup_map riskPatterns_category_nodup hq hmem
      (h1.symm.trans hcat)
  rw [h2, hqp]

set_option maxHeartbeats 8000000 in
/-- C7 counterexample: for the P0-Critical issue rIssueP0 matching the
external-dependency pattern (default impact high), the emitted risk keeps
impact high instead of the claimed one-step bump to critical. -/
theorem C7_counterexample :
    (analyzeIssue rIssueP0 none 1).map (fun r => (r.category, r.impact)) =
      [(RiskCategory.externalDependency, RiskImpact.high)] ∧
    bumpImpact extDepPattern.defaultImpact = RiskImpact.critical ∧
    RiskImpact.high ≠ RiskImpact.critical := by
  refine ⟨?_, by with_unfolding_all rfl, by simp⟩
  with_unfolding_all rfl

set_option maxHeartbeats 8000000 in
/-- C7 witness: the amended theorem applied to the concrete P1-High issue
and the external-dependency pattern: the emitted risk's impact equals the
pattern default high. -/
theorem C7_witness : c7risk.impact = extDepPattern.defaultImpact := by
  have hl : analyzeIssue rIssueP1 none 1 = [c7risk] := by
    with_unfolding_all rfl
  refine C7_impact_default rIssueP1 none 1 extDepPattern c7risk
    (List.mem_cons_self _ _) ?_ ?_
  · rw [hl]; exact List.mem_cons_self _ _
  · with_unfolding_all rfl

/-- C9: agent inference is first-match-wins over the fixed category order
security, frontend, backend, devops, test, documentation, research, with
general-purpose as the fallback; in particular an issue firing both the
security and the frontend signals is classified security-specialist, and
an issue firing no signal is classified general-purpose. -/
theorem C9_agent_order :
    (∀ issue : Issue, inferAgentType issue =
      ((agentSignalTable.find? (fun pr => pr.2 issue)).map Prod.fst).getD
        .generalPurpose) ∧
    (∀ issue : Issue, securitySignal issue = true → frontendSignal issue = true →
      inferAgentType issue = .securitySpecialist) ∧
    (∀ issue : Issue, (∀ pr ∈ agentSignalTable, pr.2 issue = false) →
      inferAgentType issue = .generalPurpose) := by
  refine ⟨?_, ?_, ?_⟩
  · intro issue
    unfold inferAgentType agentSignalTable
    cases h1 : securitySignal issue <;> cases h2 : frontendSignal issue <;>
      cases h3 : backendSignal issue <;> cases h4 : devopsSignal issue <;>
      cases h5 : testSignal issue <;> cases h6 : docSignal issue <;>
      cases h7 : researchSignal issue <;>
      simp [List.find?, h1, h2, h3, h4, h5, h6, h7]
  · intro issue h1 _
    simp [inferAgentType, h1]
  · intro issue hall
    have h1 := hall (.securitySpecialist, securitySignal) (by simp [agentSignalTable])
    have h2 := hall (.frontendDeveloper, frontendSignal) (by simp [agentSignalTable])
    have h3 := hall (.backendDeveloper, backendSignal) (by simp [agentSignalTable])
    have h4 := hall (.devopsEngineer, devopsSignal) (by simp [agentSignalTable])
    have h5 := hall (.testEngineer, testSignal) (by simp [agentSignalTable])
    have h6 := hall (.documentationWriter, docSignal) (by simp [agentSignalTable])
    have h7 := hall (.researcher, researchSignal) (by simp [agentSignalTable])
    simp only at h1 h2 h3 h4 h5 h6 h7
    simp [inferAgentType, h1, h2, h3, h4, h5, h6, h7]

set_option maxHeartbeats 16000000 in
/-- C9 witness: the theorem applied to a concrete issue labelled both
security and frontend (classified security-specialist) and to an issue
matching no signal set (classified general-purpose). -/
theorem C9_witness :
    inferAgentType secFeIssue = .securitySpecialist ∧
    inferAgentType plainIssue = .generalPurpose := by
  constructor
  · exact C9_agent_order.2.1 secFeIssue (by with_unfolding_all rfl)
      (by with_unfolding_all rfl)
  · refine C9_agent_order.2.2 plainIssue ?_
    intro pr hpr
    simp [agentSignalTable] at hpr
    rcases hpr with h | h | h | h | h | h | h <;> rw [h] <;>
      with_unfolding_all rfl

theorem scrFold_paths (l : List String) (hnd : l.Nodup) (A S : Finset String) :
    l.foldl scrStep (A, S) = (A ∪ l.toFinset, S ∪ (l.toFinset ∩ A)) := by
  induction l generalizing A S with
  | nil => simp
  | cons p rest ih =>
      rw [List.nodup_cons] at hnd
      obtain ⟨hp, hrest⟩ := hnd
      rw [List.foldl_cons]
      show rest.foldl scrStep (insert p A, if p ∈ A then insert p S else S) = _
      rw [ih hrest]
      have hfst : insert p A ∪ rest.toFinset = A ∪ (p :: rest).toFinset := by
        simp [Finset.insert_union, Finset.union_insert]
      have hinter : rest.toFinset ∩ insert p A = rest.toFinset ∩ A := by
        ext x
        simp only [Finset.mem_inter, Finset.mem_insert, List.mem_toFinset]
        constructor
        · rintro ⟨hx, hx2 | hx2⟩
          · exact absurd (hx2 ▸ hx) hp
          · exact ⟨hx, hx2⟩
        · rintro ⟨hx, hx2⟩
          exact ⟨hx, Or.inr hx2⟩
      by_cases hpA : p ∈ A
      · rw [if_pos hpA]
        refine Prod.ext hfst ?_
        show insert p S ∪ (rest.toFinset ∩ insert p A) =
          S ∪ ((p :: rest).toFinset ∩ A)
        rw [hinter]
        have : ((p :: rest).toFinset : Finset String) ∩ A =
            insert p (rest.toFinset ∩ A) := by
          simp only [List.toFinset_cons]
          rw [Finset.insert_inter_of_mem hpA]
        rw [this, Finset.insert_union, Finset.union_insert]
      · rw [if_neg hpA]
        refine Prod.ext hfst ?_
        show S ∪ (rest.toFinset ∩ insert p A) = S ∪ ((p :: rest).toFinset ∩ A)
        rw [hinter]
        congr 1
        simp only [List.toFinset_cons]
        rw [Finset.insert_inter_of_not_mem hpA]

theorem scrState_foldl (issues : List Issue)
    (ctxs : List (String × CodebaseContext)) :
    scrState issues ctxs =
      issues.foldl (fun pr i => (pathsOfIssue ctxs i).foldl scrStep pr) (∅, ∅) := by
  unfold scrState
  congr 1
  funext pr i
  unfold pathsOfIssue
  cases mapGet ctxs i.id <;> rfl

theorem mem_distinct_iff (issues : List Issue)
    (ctxs : List (String × CodebaseContext)) (p : String) :
    p ∈ distinctContextPaths issues ctxs ↔
      0 < issues.countP (fun i => decide (p ∈ pathsOfIssue ctxs i)) := by
  unfold distinctContextPaths
  rw [List.countP_pos_iff]
  simp [List.mem_flatten]

theorem scrState_characterization (issues : List Issue)
    (ctxs : List (String × CodebaseContext))
    (hnd : ∀ i ∈ issues, (pathsOfIssue ctxs i).Nodup) :
    scrState issues ctxs =
      (distinctContextPaths issues ctxs, sharedContextPaths issues ctxs) := by
  rw [scrState_foldl]
  induction issues using List.reverseRecOn with
  | nil => simp [distinctContextPaths, sharedContextPaths]
  | append_singleton l i ih =>
      have hndl : ∀ j ∈ l, (pathsOfIssue ctxs j).Nodup := fun j hj =>
        hnd j (List.mem_append_left _ hj)
      have hndi : (pathsOfIssue ctxs i).Nodup :=
        hnd i (List.mem_append_right _ (List.mem_singleton_self i))
      rw [List.foldl_append, List.foldl_cons, List.foldl_nil, ih hndl]
      rw [scrFold_paths _ hndi]
      have hfst : distinctContextPaths l ctxs ∪ (pathsOfIssue ctxs i).toFinset =
          distinctContextPaths (l ++ [i]) ctxs := by
        unfold distinctContextPaths
        simp [List.toFinset_append]
      refine Prod.ext hfst ?_
      show sharedContextPaths l ctxs ∪
          ((pathsOfIssue ctxs i).toFinset ∩ distinctContextPaths l ctxs) =
        sharedContextPaths (l ++ [i]) ctxs
      ext p
      have hcount : (l ++ [i]).countP (fun j => decide (p ∈ pathsOfIssue ctxs j)) =
          l.countP (fun j => decide (p ∈ pathsOfIssue ctxs j)) +
            (if p ∈ pathsOfIssue ctxs i then 1 else 0) := by
        rw [List.countP_append]
        simp [List.countP_cons]
      have hmeml := mem_distinct_iff l ctxs p
      have hmemli := mem_distinct_iff (l ++ [i]) ctxs p
      simp only [Finset.mem_union, Finset.mem_inter, List.mem_toFinset,
        sharedContextPaths, Finset.mem_filter] at hmeml hmemli ⊢
      by_cases hpi : p ∈ pathsOfIssue ctxs i
      · simp only [hpi, if_pos] at hcount
        constructor
        · rintro (⟨hd, hc⟩ | ⟨_, hd⟩)
          · exact ⟨hmemli.mpr (by rw [hcount]; omega), by rw [hcount]; omega⟩
          · have := hmeml.mp hd
            exact ⟨hmemli.mpr (by rw [hcount]; omega), by rw [hcount]; omega⟩
        · rintro ⟨_, hc⟩
          rw [hcount] at hc
          rcases Nat.lt_or_ge 0 (l.countP (fun j => decide (p ∈ pathsOfIssue ctxs j)))
            with hl0 | hl0
          · exact Or.inr ⟨hpi, hmeml.mpr hl0⟩
          · omega
      · simp only [hpi, if_neg, not_false_iff, add_zero] at hcount
        constructor
        · rintro (⟨hd, hc⟩ | ⟨hmem, _⟩)
          · exact ⟨hmemli.mpr (by rw [hcount]; omega), by rw [hcount]; omega⟩
          · exact absurd hmem hpi
        · rintro ⟨hd, hc⟩
          rw [hcount] at hc
          exact Or.inl ⟨hmeml.mpr (by omega), hc⟩

/-- C8: for at least two issues whose per-issue context path lists are
duplicate-free (touched and related disjoint by path, each a set), the
shared-context discount equals min(overlap x 0.7, 0.5), where overlap is
the number of distinct paths appearing in at least two issues' contexts
divided by the number of distinct paths overall; estimateWave applies the
discount to the summed context component only, all other components being
plain sums. -/
theorem C8_shared_context_discount (cfg : EstimationConfig)
    (issues : List Issue) (ctxs : List (String × CodebaseContext))
    (h2 : 2 ≤ issues.length)
    (hnd : ∀ i ∈ issues, (pathsOfIssue ctxs i).Nodup) :
    calculateSharedContextReduction issues ctxs =
      min ((((sharedContextPaths issues ctxs).card : ℚ) /
            ((distinctContextPaths issues ctxs).card : ℚ)) * (7/10)) (1/2) ∧
    (estimateWave cfg issues ctxs).breakdown.codebaseContext =
      jsRound (((issues.map (fun i => (estimate cfg i
          ((mapGet ctxs i.id).getD createEmptyContext)).breakdown.codebaseContext)).sum : ℚ) *
        (1 - calculateSharedContextReduction issues ctxs)) ∧
    (estimateWave cfg issues ctxs).breakdown.implementation =
      (issues.map (fun i => (estimate cfg i
        ((mapGet ctxs i.id).getD createEmptyContext)).breakdown.implementation)).sum ∧
    (estimateWave cfg issues ctxs).breakdown.tests =
      (issues.map (fun i => (estimate cfg i
        ((mapGet ctxs i.id).getD createEmptyContext)).breakdown.tests)).sum ∧
    (estimateWave cfg issues ctxs).breakdown.review =
      (issues.map (fun i => (estimate cfg i
        ((mapGet ctxs i.id).getD createEmptyContext)).breakdown.review)).sum ∧
    (estimateWave cfg issues ctxs).breakdown.documentation =
      (issues.map (fun i => (estimate cfg i
        ((mapGet ctxs i.id).getD createEmptyContext)).breakdown.documentation)).sum := by
  refine ⟨?_, ?_, ?_, ?_, ?_, ?_⟩
  · unfold calculateSharedContextReduction
    rw [if_neg (by omega), scrState_characterization issues ctxs hnd]
    by_cases hz : (distinctContextPaths issues ctxs).card = 0
    · rw [if_pos hz]
      have hsub : sharedContextPaths issues ctxs ⊆ distinctContextPaths issues ctxs :=
        Finset.filter_subset _ _
      have hshared : (sharedContextPaths issues ctxs).card = 0 := by
        have := Finset.card_le_card hsub
        omega
      rw [hz, hshared]
      norm_num
    · rw [if_neg hz]
  · simp [estimateWave, List.map_map, Function.comp_def]
  · simp [estimateWave, List.map_map, Function.comp_def]
  · simp [estimateWave, List.map_map, Function.comp_def]
  · simp [estimateWave, List.map_map, Function.comp_def]
  · simp [estimateWave, List.map_map, Function.comp_def]

set_option maxHeartbeats 8000000 in
/-- C8 witness: the theorem applied to two issues sharing exactly 1 of 2
distinct touched files: overlap 1/2, discount min(0.35, 0.5) = 0.35. -/
theorem C8_witness :
    calculateSharedContextReduction [shIssue1, shIssue2] shCtxs = 7/20 ∧
    (sharedContextPaths [shIssue1, shIssue2] shCtxs).card = 1 ∧
    (distinctContextPaths [shIssue1, shIssue2] shCtxs).card = 2 := by
  have hnd : ∀ i ∈ [shIssue1, shIssue2], (pathsOfIssue shCtxs i).Nodup := by
    intro i hi
    rcases List.mem_cons.mp hi with heq | hi2
    · have h1 : pathsOfIssue shCtxs shIssue1 = ["src/shared.ts"] := by
        with_unfolding_all rfl
      rw [heq, h1]
      simp
    · rcases List.mem_cons.mp hi2 with heq | hi3
      · have h2 : pathsOfIssue shCtxs shIssue2 = ["src/shared.ts", "src/other.ts"] := by
          with_unfolding_all rfl
        rw [heq, h2]
        simp
      · cases hi3
  have h := C8_shared_context_discount DEFAULT_CONFIG [shIssue1, shIssue2] shCtxs
    (by norm_num) hnd
  have hs : (sharedContextPaths [shIssue1, shIssue2] shCtxs).card = 1 := by
    with_unfolding_all rfl
  have hd : (distinctContextPaths [shIssue1, shIssue2] shCtxs).card = 2 := by
    with_unfolding_all rfl
  refine ⟨?_, hs, hd⟩
  rw [h.1, hs, hd]
  norm_num

theorem contains_append_str (a b : List String) (s : String) :
    (a ++ b).contains s = (a.contains s || b.contains s) := by
  rw [Bool.eq_iff_iff]
  simp [List.elem_iff]

/-- The similarity predicate a seed issue uses to collect its group. -/
def simPred (ocfg : OrganizerConfig) (m : List (String × List (String × ℚ)))
    (issue : Issue) (other : Issue) : Bool :=
  other.id == issue.id ||
    decide (ocfg.similarityThreshold ≤ matrixGet m issue.id other.id)

theorem gbcSimilar_eq_filter (ocfg : OrganizerConfig)
    (m : List (String × List (String × ℚ))) (all : List Issue)
    (assigned : List String) (issue : Issue) :
    gbcSimilar ocfg m all assigned issue =
      (all.filter (fun x => !(assigned.contains x.id))).filter
        (simPred ocfg m issue) := by
  unfold gbcSimilar
  rw [List.filter_filter]
  apply List.filter_congr
  intro a _
  rw [Bool.and_comm]
  rfl

theorem gbcStep_flatten_perm (ocfg : OrganizerConfig)
    (m : List (String × List (String × ℚ))) (all : List Issue)
    (hnd : (all.map (fun i => i.id)).Nodup) (pending : List Issue) :
    ∀ (assigned : List String), pending ⊆ all →
      (∀ x ∈ all, x.id ∉ assigned → x ∈ pending) →
      ((gbcStep ocfg m all pending assigned).map (fun g => g.issues)).flatten.Perm
        (all.filter (fun x => !(assigned.contains x.id))) := by
  have hinj : ∀ x ∈ all, ∀ y ∈ all, x.id = y.id → x = y := by
    intro x hx y hy
    exact List.inj_on_of_nodup_map hnd hx hy
  induction pending with
  | nil =>
      intro assigned _ hcov
      have hnil : all.filter (fun x => !(assigned.contains x.id)) = [] := by
        rw [List.filter_eq_nil_iff]
        intro a ha hcon
        have hmem : a.id ∉ assigned := by
          intro hm
          simp [List.elem_iff, hm] at hcon
        exact absurd (hcov a ha hmem) (List.not_mem_nil a)
      rw [hnil]
      simp [gbcStep]
  | cons i rest ih =>
      intro assigned hsub hcov
      have hisub : i ∈ all := hsub (List.mem_cons_self i rest)
      have hrsub : rest ⊆ all := fun x hx => hsub (List.mem_cons_of_mem i hx)
      by_cases hia : i.id ∈ assigned
      · simp only [gbcStep, if_pos hia]
        refine ih assigned hrsub ?_
        intro x hx hxa
        rcases List.mem_cons.mp (hcov x hx hxa) with heq | h
        · exact absurd (heq ▸ hia) hxa
        · exact h
      · simp only [gbcStep, if_neg hia]
        have hsim := gbcSimilar_eq_filter ocfg m all assigned i
        have hiin : i ∈ gbcSimilar ocfg m all assigned i := by
          rw [hsim]
          refine List.mem_filter.mpr ⟨List.mem_filter.mpr ⟨hisub, ?_⟩, ?_⟩
          · simp [List.elem_iff, hia]
          · simp [simPred]
        have ihcov : ∀ x ∈ all,
            x.id ∉ assigned ++ (gbcSimilar ocfg m all assigned i).map (fun s => s.id) →
            x ∈ rest := by
          intro x hx hxa
          rw [List.mem_append] at hxa
          push_neg at hxa
          obtain ⟨hxa1, hxa2⟩ := hxa
          rcases List.mem_cons.mp (hcov x hx hxa1) with heq | h
          · subst heq
            exact absurd (List.mem_map_of_mem (fun s => s.id) hiin) hxa2
          · exact h
        have ih2 := ih (assigned ++ (gbcSimilar ocfg m all assigned i).map (fun s => s.id))
          hrsub ihcov
        have hmemsim : ∀ a ∈ all.filter (fun x => !(assigned.contains x.id)),
            ((gbcSimilar ocfg m all assigned i).map (fun s => s.id)).contains a.id =
              simPred ocfg m i a := by
          intro a ha
          have haall : a ∈ all := (List.mem_filter.mp ha).1
          rw [Bool.eq_iff_iff]
          constructor
          · intro hc
            have hmm : a.id ∈ (gbcSimilar ocfg m all assigned i).map (fun s => s.id) := by
              simpa [List.elem_iff] using hc
            rcases List.mem_map.mp hmm with ⟨y, hy, hyid⟩
            have hyall : y ∈ all := (List.mem_filter.mp (List.mem_filter.mp (hsim ▸ hy)).1).1
            have hya : y = a := hinj y hyall a haall hyid
            have hain : a ∈ gbcSimilar ocfg m all assigned i := hya ▸ hy
            exact (List.mem_filter.mp (hsim ▸ hain)).2
          · intro hp
            have hain : a ∈ gbcSimilar ocfg m all assigned i := by
              rw [hsim]
              exact List.mem_filter.mpr ⟨ha, hp⟩
            have : a.id ∈ (gbcSimilar ocfg m all assigned i).map (fun s => s.id) :=
              List.mem_map_of_mem (fun s => s.id) hain
            simpa [List.elem_iff] using this
        have hLrw : all.filter (fun x =>
            !((assigned ++ (gbcSimilar ocfg m all assigned i).map (fun s => s.id)).contains x.id)) =
            (all.filter (fun x => !(assigned.contains x.id))).filter
              (fun x => !(simPred ocfg m i x)) := by
          rw [show (fun x : Issue =>
              !((assigned ++ (gbcSimilar ocfg m all assigned i).map (fun s => s.id)).contains x.id)) =
              (fun x : Issue =>
                !(((gbcSimilar ocfg m all assigned i).map (fun s => s.id)).contains x.id) &&
                  !(assigned.contains x.id)) from ?_]
          · rw [← List.filter_filter]
            apply List.filter_congr
            intro a ha
            rw [hmemsim a ha]
          · funext x
            rw [contains_append_str, Bool.not_or, Bool.and_comm]
        rw [hLrw] at ih2
        simp only [List.map_cons, List.flatten_cons]
        refine List.Perm.trans
          (List.Perm.append_left (gbcSimilar ocfg m all assigned i) ih2) ?_
        rw [hsim]
        exact List.filter_append_perm _ _

theorem splitGo_issues (ecfg : EstimationConfig) (ocfg : OrganizerConfig)
    (ctxs : List (String × CodebaseContext)) (sim : ℚ) (pending : List Issue) :
    ∀ (current : List Issue) (tokens : ℤ),
      ((splitGo ecfg ocfg ctxs sim pending current tokens).map
        (fun g => g.issues)).flatten = current ++ pending := by
  induction pending with
  | nil =>
      intro current tokens
      by_cases hc : 0 < current.length
      · simp [splitGo, hc]
      · have : current = [] := by
          cases current with
          | nil => rfl
          | cons a l => simp at hc
        simp [splitGo, hc, this]
  | cons i rest ih =>
      intro current tokens
      simp only [splitGo]
      split
      · simp [ih]
      · simp [ih]

theorem splitGroupIfNeeded_issues (ecfg : EstimationConfig)
    (ocfg : OrganizerConfig) (ctxs : List (String × CodebaseContext))
    (group : WaveGroup) :
    ((splitGroupIfNeeded ecfg ocfg ctxs group).map
      (fun g => g.issues)).flatten = group.issues := by
  unfold splitGroupIfNeeded
  split
  · simp
  · simp [splitGo_issues]

theorem g2wGo_issues (ecfg : EstimationConfig)
    (ctxs : List (String × CodebaseContext)) (subs : List WaveGroup) :
    ∀ acc : List Wave,
      ((g2wGo ecfg ctxs subs acc).map (fun w => w.issues)).flatten =
        ((acc.map (fun w => w.issues)).flatten) ++
          ((subs.map (fun g => g.issues)).flatten) := by
  induction subs with
  | nil => intro acc; simp [g2wGo]
  | cons sg rest ih =>
      intro acc
      simp only [g2wGo]
      rw [ih]
      simp [List.map_append, List.flatten_append, List.append_assoc]

theorem g2wGo_numbers (ecfg : EstimationConfig)
    (ctxs : List (String × CodebaseContext)) (subs : List WaveGroup) :
    ∀ acc : List Wave,
      (g2wGo ecfg ctxs subs acc).map (fun w => w.number) =
        acc.map (fun w => w.number) ++
          List.range' (acc.length + 1) subs.length := by
  induction subs with
  | nil => intro acc; simp [g2wGo]
  | cons sg rest ih =>
      intro acc
      simp only [g2wGo]
      rw [ih]
      simp only [List.length_cons, List.range'_succ]
      simp [List.append_assoc]

theorem flatten_map_issues_of_split (ecfg : EstimationConfig)
    (ocfg : OrganizerConfig) (ctxs : List (String × CodebaseContext))
    (gs : List WaveGroup) :
    ((((gs.map (splitGroupIfNeeded ecfg ocfg ctxs)).flatten).map
      (fun g => g.issues)).flatten) = ((gs.map (fun g => g.issues)).flatten) := by
  induction gs with
  | nil => simp
  | cons g rest ih =>
      simp only [List.map_cons, List.flatten_cons, List.map_append,
        List.flatten_append]
      rw [ih, splitGroupIfNeeded_issues]

/-- C3: every input issue appears in exactly one output wave (the
concatenation of the waves' issue lists is a permutation of the input,
given distinct issue ids), and wave numbers are the contiguous sequence
1..N in emission order. -/
theorem C3_organize_partition (ecfg : EstimationConfig)
    (ocfg : OrganizerConfig) (issues : List Issue)
    (ctxs : List (String × CodebaseContext))
    (hnd : (issues.map (fun i => i.id)).Nodup) :
    ((organize ecfg ocfg issues ctxs).map (fun w => w.issues)).flatten.Perm issues ∧
    (organize ecfg ocfg issues ctxs).map (fun w => w.number) =
      List.range' 1 (organize ecfg ocfg issues ctxs).length := by
  by_cases hz : issues.length = 0
  · have hempty : issues = [] := List.length_eq_zero.mp hz
    subst hempty
    simp [organize]
  · have horg : organize ecfg ocfg issues ctxs =
        (groupsToWaves ecfg ocfg ctxs
          (if ocfg.respectDependencies then
            orderByDependencies
              (groupByContext ocfg (calculateOverlapMatrix issues ctxs) issues)
              issues
          else groupByContext ocfg (calculateOverlapMatrix issues ctxs) issues)).map
          (fun w => { w with agents := assignAgents w.issues }) := by
      simp only [organize, if_neg hz]
    have hsortperm : (sortIssuesByPriority issues).Perm issues := by
      unfold sortIssuesByPriority
      exact List.mergeSort_perm _ _
    have hsortnd : ((sortIssuesByPriority issues).map (fun i => i.id)).Nodup :=
      ((hsortperm.map (fun i => i.id)).symm).nodup hnd
    have hgroups : ((groupByContext ocfg (calculateOverlapMatrix issues ctxs)
        issues).map (fun g => g.issues)).flatten.Perm issues := by
      unfold groupByContext
      have h := gbcStep_flatten_perm ocfg (calculateOverlapMatrix issues ctxs)
        (sortIssuesByPriority issues) hsortnd (sortIssuesByPriority issues) []
        (List.Subset.refl _) (fun x hx _ => hx)
      have hfil : (sortIssuesByPriority issues).filter
          (fun x => !(([] : List String).contains x.id)) =
          sortIssuesByPriority issues := by
        simp
      rw [hfil] at h
      exact h.trans hsortperm
    have hop : (if ocfg.respectDependencies then
          orderByDependencies
            (groupByContext ocfg (calculateOverlapMatrix issues ctxs) issues)
            issues
        else groupByContext ocfg (calculateOverlapMatrix issues ctxs)
          issues).Perm
        (groupByContext ocfg (calculateOverlapMatrix issues ctxs) issues) := by
      split
      · unfold orderByDependencies
        exact List.mergeSort_perm _ _
      · exact List.Perm.refl _
    have hupd : ((fun w : Wave => w.issues) ∘
        (fun w : Wave => { w with agents := assignAgents w.issues })) =
        (fun w : Wave => w.issues) := rfl
    have hupd2 : ((fun w : Wave => w.number) ∘
        (fun w : Wave => { w with agents := assignAgents w.issues })) =
        (fun w : Wave => w.number) := rfl
    have hissues : ((organize ecfg ocfg issues ctxs).map
        (fun w => w.issues)).flatten =
        (((if ocfg.respectDependencies then
            orderByDependencies
              (groupByContext ocfg (calculateOverlapMatrix issues ctxs) issues)
              issues
          else groupByContext ocfg (calculateOverlapMatrix issues ctxs)
            issues).map (fun g => g.issues)).flatten) := by
      rw [horg, List.map_map, hupd]
      unfold groupsToWaves
      rw [g2wGo_issues]
      simp only [List.map_nil, List.flatten_nil, List.nil_append]
      exact flatten_map_issues_of_split ecfg ocfg ctxs _
    have hnum : (organize ecfg ocfg issues ctxs).map (fun w => w.number) =
        List.range' 1 (((if ocfg.respectDependencies then
            orderByDependencies
              (groupByContext ocfg (calculateOverlapMatrix issues ctxs) issues)
              issues
          else groupByContext ocfg (calculateOverlapMatrix issues ctxs)
            issues).map (splitGroupIfNeeded ecfg ocfg ctxs)).flatten).length := by
      rw [horg, List.map_map, hupd2]
      unfold groupsToWaves
      rw [g2wGo_numbers]
      simp
    refine ⟨?_, ?_⟩
    · rw [hissues]
      exact ((hop.map (fun g => g.issues)).flatten).trans hgroups
    · have hlen : (organize ecfg ocfg issues ctxs).length =
          (((if ocfg.respectDependencies then
              orderByDependencies
                (groupByContext ocfg (calculateOverlapMatrix issues ctxs) issues)
                issues
            else groupByContext ocfg (calculateOverlapMatrix issues ctxs)
              issues).map (splitGroupIfNeeded ecfg ocfg ctxs)).flatten).length := by
        have := congrArg List.length hnum
        rw [List.length_map, List.length_range'] at this
        exact this
      rw [hnum, hlen]
    
set_option maxHeartbeats 16000000 in
/-- C3 witness: the theorem applied to two concrete issues with distinct
ids; organize yields waves that partition them with numbers 1..N. -/
theorem C3_witness :
    ((organize DEFAULT_CONFIG DEFAULT_ORGANIZER_CONFIG [shIssue1, shIssue2]
        shCtxs).map (fun w => w.issues)).flatten.Perm [shIssue1, shIssue2] ∧
    (organize DEFAULT_CONFIG DEFAULT_ORGANIZER_CONFIG [shIssue1, shIssue2]
        shCtxs).map (fun w => w.number) =
      List.range' 1 (organize DEFAULT_CONFIG DEFAULT_ORGANIZER_CONFIG
        [shIssue1, shIssue2] shCtxs).length :=
  C3_organize_partition DEFAULT_CONFIG DEFAULT_ORGANIZER_CONFIG
    [shIssue1, shIssue2] shCtxs (by simp [shIssue1, shIssue2])
